import Mathlib

/-!
Verification of the yt-comment-fetcher Stream Resilience Manager

Shallow embedding of `src/main.rs`: the resume-log recovery functions
(`read_last_line`, `parse_resume_info`), the startup bootstrap of `main`,
and the reconnect/stream-consumption loop (`handle_stream_message!`,
`attempt_reconnect!`, the `tokio::select!` loop), together with theorems
about the claims of the spec on them.

Modelling conventions:
- JSON values (`serde_json::Value`) are the inductive `Json`; a raw text
  line of the output file is abstracted by its parse classification
  (`LineContent`): blank (trims to empty), well-formed JSON, or malformed.
- File-system outcomes are explicit (`FileState`): absent, open failure
  other than absence, or present with lines and a possible mid-read failure.
- The event loop is a fold of a `step` function over an explicit list of
  `Event`s, each event being the branch of the `tokio::select!` that fired
  (stream result with an append-success flag, reconnect timer with the
  outcome of the reconnection attempt, or a cancellation signal). The
  select in the source has no `biased;` clause, so when several branches
  are simultaneously ready any of them may fire: a list of events
  represents one realizable schedule.
- Calls to the external collaborators (`YouTubeClient::connect`,
  `stream_comments`) are recorded as observations in the run state.
-/

/-- Mirror of `serde_json::Value`. -/
inductive Json where
  | null
  | bool (b : Bool)
  | num (n : Int)
  | str (s : String)
  | arr (elems : List Json)
  | obj (fields : List (String × Json))

/-- Mirror of `serde_json::Value::get(key)`: field lookup on an object,
`None` on every other variant. -/
def Json.get : Json → String → Option Json
  | .obj fields, k => List.lookup k fields
  | _, _ => none

/-- Mirror of `serde_json::Value::as_array`. -/
def Json.asArray : Json → Option (List Json)
  | .arr xs => some xs
  | _ => none

/-- Mirror of `serde_json::Value::as_str`. -/
def Json.asStr : Json → Option String
  | .str s => some s
  | _ => none

/-- A line of the output file, abstracted by its content class:
`blank` trims to the empty string; `json v` is a non-blank line that
`serde_json::from_str` parses as `v`; `malformed` is a non-blank line
that fails to parse. -/
inductive LineContent where
  | blank
  | json (v : Json)
  | malformed

/-- The state of the output file as seen by `read_last_line`:
absent (open fails with `NotFound`), an open failure of another kind,
or present with its list of lines, `readErr` recording whether one of
the `reader.lines()` reads fails. -/
inductive FileState where
  | absent
  | openError
  | present (lines : List LineContent) (readErr : Bool)

/-- The fatal I/O failure class (`std::io::Error` propagated by `?`). -/
inductive IoError where
  | ioError
deriving DecidableEq

/-- A `serde_json::from_str` failure in `parse_resume_info`. -/
inductive ParseError where
  | parseError
deriving DecidableEq

/-- The fold inside `read_last_line`: keep the last line whose trimmed
content is non-empty (`!line.trim().is_empty()`). -/
def lastNonBlank (lines : List LineContent) : Option LineContent :=
  lines.foldl
    (fun acc l =>
      match l with
      | .blank => acc
      | l => some l)
    none

/-- Embedding of `read_last_line` (src/main.rs:133): `Ok(None)` when the
file is absent, `Err` on any other open failure or on a failed line read,
otherwise the last non-blank line. -/
def read_last_line : FileState → Except IoError (Option LineContent)
  | .absent => .ok none
  | .openError => .error .ioError
  | .present lines readErr =>
      if readErr then .error .ioError else .ok (lastNonBlank lines)

/-- Embedding of `parse_resume_info` (src/main.rs:156): parse the line as
JSON (failing on blank or malformed input), then extract
`items[0].snippet.liveChatId` and `nextPageToken` through the exact
`and_then` chains of the source. -/
def parse_resume_info : LineContent → Except ParseError (Option String × Option String)
  | .json v =>
      let chat_id :=
        ((((((v.get "items").bind Json.asArray).bind List.head?).bind
          (fun item => item.get "snippet")).bind
          (fun snippet => snippet.get "liveChatId")).bind Json.asStr)
      let next_page_token := (v.get "nextPageToken").bind Json.asStr
      .ok (chat_id, next_page_token)
  | _ => .error .parseError

/-- The error exits of `main` before the event loop, in source order. -/
inductive ProgError where
  | argMissingVideoOrResume
  | argResumeNeedsOutput
  | ioError
  | videoIdRequired
  | fetchFailed
  | connectError
  | streamStartError
deriving DecidableEq

/-- Embedding of the resume block of `main` (src/main.rs:220-252):
read the last line (`?` propagates the I/O error), and on a parsed line
keep the chat id and token only when the chat id is present; a parse
failure or a missing chat id degrades to `(none, none)`. -/
def resume_bootstrap (file : FileState) : Except ProgError (Option String × Option String) :=
  match read_last_line file with
  | .error _ => .error .ioError
  | .ok none => .ok (none, none)
  | .ok (some line) =>
      match parse_resume_info line with
      | .ok (some cid, tok) => .ok (some cid, tok)
      | .ok (none, _) => .ok (none, none)
      | .error _ => .ok (none, none)

/-- Embedding of the startup of `main` (src/main.rs:185-274): argument
validation, the resume block, and the fall-back to external chat-id
resolution (`fetch_chat_id`, an external REST collaborator modelled by
its outcome `resolver`) when no chat id was recovered. Returns the chat
id and initial page token the loop starts with. -/
def startup (resume : Bool) (video_id : Option String) (output_given : Bool)
    (file : FileState) (resolver : Except Unit String) :
    Except ProgError (String × Option String) :=
  if !resume && video_id.isNone then .error .argMissingVideoOrResume
  else if resume && !output_given then .error .argResumeNeedsOutput
  else
    match (if resume then resume_bootstrap file else .ok (none, none)) with
    | .error e => .error e
    | .ok (some cid, tok) => .ok (cid, tok)
    | .ok (none, tok) =>
        match video_id with
        | none => .error .videoIdRequired
        | some _ =>
            match resolver with
            | .ok cid => .ok (cid, tok)
            | .error _ => .error .fetchFailed

/-- A server-delivered unit of the stream (`LiveChatMessageListResponse`):
the message items (each in its JSON form) and the continuation token.
`next_page_token` is optional in the wire type, matching the optional
request field threaded through `stream_comments`. -/
structure Batch where
  items : List Json
  next_page_token : Option String

/-- Modelled from the spec: the serialization of a `Batch` written by
`serde_json::to_string(&message)` to the Resume Log. The proto definition
`proto/stream_list.proto` and the generated serialization code for
`LiveChatMessageListResponse` are not among the sources here, so the JSON
shape is taken from the Resume Record contract of the spec (§3): the record is
the serialized Batch, whose `nextPageToken` and whose first item
(via its embedded `snippet.liveChatId`) are what recovery reads back. -/
def serializeBatch (b : Batch) : Json :=
  Json.obj
    [("items", Json.arr b.items),
     ("nextPageToken",
        match b.next_page_token with
        | some t => Json.str t
        | none => Json.null)]

/-- Outcome of one resolved `stream.next()` call:
`msg` for `Some(Ok(message))`, `err` for `Some(Err(e))` (a mid-stream
transport error), `closed` for `None` (end of stream). -/
inductive StreamResult where
  | msg (b : Batch)
  | err
  | closed

/-- Outcome of one reconnection attempt (`attempt_reconnect!` body):
`connectFail` when `YouTubeClient::connect` fails, `streamFail` when
`connect` succeeds but `stream_comments` fails, `ok` when both succeed. -/
inductive ReconnectOutcome where
  | connectFail
  | streamFail
  | ok
deriving DecidableEq

/-- One firing of a branch of the `tokio::select!` loop:
a resolved `stream.next()` (with `writeOk` recording whether the
`writeln!`/`flush` of that iteration would succeed), an elapsed
reconnect deadline together with the outcome of the reconnection attempt
it triggers, or a cancellation signal (SIGINT/SIGTERM). -/
inductive Event where
  | stream (res : StreamResult) (writeOk : Bool)
  | timer (out : ReconnectOutcome)
  | cancel

/-- The mutable state of the `main` loop, plus recorded observations:
`next_page_token` and `pending` (is `reconnect_until` set) mirror the
variables of the source; `log` is the sequence of lines appended to the output
file; `connects` records the credential attached to each
`YouTubeClient::connect` call; `streamCalls` records the `(chat id, page
token)` arguments of each `stream_comments` call; `terminated` is set by
`break` on a signal; `fatal` is set when a `?` propagates an I/O error
out of the loop; `lastBatch` observes the continuation token of the most
recently processed batch. -/
structure RunState where
  next_page_token : Option String
  pending : Bool
  log : List Json
  connects : List (Option String)
  streamCalls : List (String × Option String)
  terminated : Bool
  fatal : Bool
  lastBatch : Option (Option String)

/-- One iteration of the `main` loop (src/main.rs:314-369) on the event
that fired. Once the loop has been left (`terminated` or `fatal`) nothing
further happens. While `reconnect_until` is set only the timer and the
signals are polled; otherwise only the stream and the signals are. The
`stream` arm is `handle_stream_message!`: the page token is updated first
(line 73), then a non-empty batch is appended (a failing append
propagates fatally); empty batches are not written. The `timer` arm is
`attempt_reconnect!`: `connect` is called with the startup credential,
then `stream_comments` with the current page token; on either failure the
deadline is re-armed. -/
def step (api_key : Option String) (chat_id : String) (s : RunState) (e : Event) : RunState :=
  if s.terminated || s.fatal then s
  else
    match e with
    | .cancel => { s with terminated := true }
    | .timer out =>
        if s.pending then
          let s1 := { s with pending := false, connects := s.connects ++ [api_key] }
          match out with
          | .connectFail => { s1 with pending := true }
          | .streamFail =>
              { s1 with
                streamCalls := s1.streamCalls ++ [(chat_id, s1.next_page_token)],
                pending := true }
          | .ok =>
              { s1 with
                streamCalls := s1.streamCalls ++ [(chat_id, s1.next_page_token)] }
        else s
    | .stream res writeOk =>
        if s.pending then s
        else
          match res with
          | .msg b =>
              let s1 :=
                { s with
                  next_page_token := b.next_page_token,
                  lastBatch := some b.next_page_token }
              if b.items.isEmpty then s1
              else if writeOk then { s1 with log := s1.log ++ [serializeBatch b] }
              else { s1 with fatal := true }
          | .err => { s with pending := true }
          | .closed => { s with pending := true }

/-- The loop state just after the successful initial connect and
`stream_comments` call (src/main.rs:291-305): the initial token is the
resume token, the deadline is unarmed, and the initial connect and
stream call are recorded. -/
def initRunState (api_key : Option String) (chat_id : String) (t0 : Option String) : RunState :=
  { next_page_token := t0
    pending := false
    log := []
    connects := [api_key]
    streamCalls := [(chat_id, t0)]
    terminated := false
    fatal := false
    lastBatch := none }

/-- Run the loop from a given state over a schedule of events. -/
def runFrom (api_key : Option String) (chat_id : String)
    (s : RunState) (events : List Event) : RunState :=
  events.foldl (step api_key chat_id) s

/-- Run the loop from the initial state over a schedule of events. -/
def run (api_key : Option String) (chat_id : String) (t0 : Option String)
    (events : List Event) : RunState :=
  runFrom api_key chat_id (initRunState api_key chat_id t0) events

/-- Embedding of the whole of `main`: startup, then the fail-fast initial
`connect` (src/main.rs:291) and initial `stream_comments` (line 294),
both of which propagate their errors with `?`, then the loop. -/
def runProgram (resume : Bool) (video_id : Option String) (output_given : Bool)
    (file : FileState) (resolver : Except Unit String) (api_key : Option String)
    (initConnectOk : Bool) (initStreamOk : Bool) (events : List Event) :
    Except ProgError RunState :=
  match startup resume video_id output_given file resolver with
  | .error e => .error e
  | .ok (chat_id, tok) =>
      if !initConnectOk then .error .connectError
      else if !initStreamOk then .error .streamStartError
      else .ok (run api_key chat_id tok events)

/-- Every batch event in the schedule carries a present continuation
token (the data-model guarantee of the spec that a batch, empty or not,
carries a valid `page_token`). -/
def batchTokensPresent (events : List Event) : Bool :=
  events.all fun e =>
    match e with
    | .stream (.msg b) _ => b.next_page_token.isSome
    | _ => true

/-- Every `YouTubeClient::connect` call recorded so far carried the
startup credential. -/
def connectsAllKey (k : Option String) (s : RunState) : Bool :=
  s.connects.all fun x => x == k

/-- Invariant relating the in-memory page token to the last processed
batch: it is the initial token until a batch arrives, and afterwards the
token of the most recently processed batch. -/
def TokInv (t0 : Option String) (s : RunState) : Prop :=
  match s.lastBatch with
  | none => s.next_page_token = t0
  | some t => s.next_page_token = t

def c1_start : RunState := initRunState none "chat" (some "old")

def c1_batch : Batch := { items := [Json.null], next_page_token := some "new" }

def c2_pre : List Event :=
  [Event.stream (StreamResult.msg { items := [Json.null], next_page_token := some "a" }) true,
   Event.stream StreamResult.err true]

def c3_start : RunState := initRunState none "chat" (some "t0")

def c3_batch : Batch := { items := [], next_page_token := some "b" }

def c5_batch : Batch := { items := [Json.null], next_page_token := some "tok" }

def c5_start : RunState := initRunState none "chat" none

def c6_connected : RunState := initRunState none "chat" none

def c6_pending : RunState := { initRunState none "chat" none with pending := true }

def c6_batch : Batch := { items := [Json.null], next_page_token := some "x" }

/-- The credential provider as a time-varying collaborator: the value it
would supply at the n-th fetch occasion. `main` performs exactly one
fetch — reading the API key file at startup (src/main.rs:194-203) — so
the program only ever sees occasion 0. -/
def provider8 : Nat → Option String :=
  fun n => if n = 0 then some "key0" else some "key1"

/-- A chat message item as embedded in a batch: carries the stream id at
`snippet.liveChatId`, as the Resume Record contract requires. -/
def msgItem (chat : String) : Json :=
  Json.obj [("snippet", Json.obj [("liveChatId", Json.str chat)])]

def batch_a : Batch := { items := [msgItem "chat1"], next_page_token := some "a" }

def batch_b : Batch := { items := [], next_page_token := some "b" }

def batch_c : Batch := { items := [msgItem "chat1"], next_page_token := some "c" }

def batch_d : Batch := { items := [msgItem "chat1"], next_page_token := some "d" }

/-- The schedule of the scenario in the spec: three batches (the second
empty), end of stream, a successful reconnection, one more batch. -/
def c9_events : List Event :=
  [Event.stream (StreamResult.msg batch_a) true,
   Event.stream (StreamResult.msg batch_b) true,
   Event.stream (StreamResult.msg batch_c) true,
   Event.stream StreamResult.closed true,
   Event.timer ReconnectOutcome.ok,
   Event.stream (StreamResult.msg batch_d) true]

def c9_run : RunState := run none "chat1" none c9_events

/-- The output file holding exactly the lines the scenario logged. -/
def c9_file : FileState := FileState.present (c9_run.log.map LineContent.json) false

def c10_value : Json := Json.obj [("items", Json.arr []), ("nextPageToken", Json.str "x")]

theorem runFrom_nil (k : Option String) (c : String) (s : RunState) :
    runFrom k c s [] = s := rfl

theorem runFrom_cons (k : Option String) (c : String) (s : RunState)
    (e : Event) (es : List Event) :
    runFrom k c s (e :: es) = runFrom k c (step k c s e) es := rfl

theorem runFrom_append (k : Option String) (c : String) (s : RunState)
    (es : List Event) (e : Event) :
    runFrom k c s (es ++ [e]) = step k c (runFrom k c s es) e := by
  simp [runFrom, List.foldl_append]

theorem step_of_terminated (k : Option String) (c : String) (s : RunState)
    (e : Event) (h : s.terminated = true) : step k c s e = s := by
  simp [step, h]

theorem step_of_fatal (k : Option String) (c : String) (s : RunState)
    (e : Event) (h : s.fatal = true) : step k c s e = s := by
  simp [step, h]

theorem runFrom_of_terminated (k : Option String) (c : String) (s : RunState)
    (es : List Event) (h : s.terminated = true) : runFrom k c s es = s := by
  induction es with
  | nil => rfl
  | cons e es ih => rw [runFrom_cons, step_of_terminated k c s e h]; exact ih

theorem runFrom_of_fatal (k : Option String) (c : String) (s : RunState)
    (es : List Event) (h : s.fatal = true) : runFrom k c s es = s := by
  induction es with
  | nil => rfl
  | cons e es ih => rw [runFrom_cons, step_of_fatal k c s e h]; exact ih

/-- A step either leaves `lastBatch` and `next_page_token` both unchanged,
or it processed a batch event and set both fields to the token of that batch. -/
theorem step_token_cases (k : Option String) (c : String) (s : RunState) (e : Event) :
    ((step k c s e).lastBatch = s.lastBatch ∧
     (step k c s e).next_page_token = s.next_page_token) ∨
    (∃ b w, e = Event.stream (StreamResult.msg b) w ∧
      (step k c s e).lastBatch = some b.next_page_token ∧
      (step k c s e).next_page_token = b.next_page_token) := by
  by_cases ht : s.terminated
  · left; rw [step_of_terminated k c s e ht]; exact ⟨rfl, rfl⟩
  · by_cases hf : s.fatal
    · left; rw [step_of_fatal k c s e hf]; exact ⟨rfl, rfl⟩
    · cases e with
      | cancel => left; simp [step, ht, hf]
      | timer out =>
          left
          cases out <;> simp [step, ht, hf] <;> by_cases hp : s.pending <;> simp [hp]
      | stream res w =>
          cases res with
          | msg b =>
              by_cases hp : s.pending
              · left; simp [step, ht, hf, hp]
              · right
                refine ⟨b, w, rfl, ?_⟩
                by_cases he : b.items.isEmpty <;> cases w <;> simp [step, ht, hf, hp, he]
          | err => left; simp [step, ht, hf]; by_cases hp : s.pending <;> simp [hp]
          | closed => left; simp [step, ht, hf]; by_cases hp : s.pending <;> simp [hp]

theorem step_tokInv (k : Option String) (c : String) (t0 : Option String)
    (s : RunState) (e : Event) (h : TokInv t0 s) : TokInv t0 (step k c s e) := by
  rcases step_token_cases k c s e with ⟨h1, h2⟩ | ⟨b, w, _, h1, h2⟩
  · unfold TokInv at h ⊢; rw [h1, h2]; exact h
  · unfold TokInv; rw [h1, h2]

theorem runFrom_tokInv (k : Option String) (c : String) (t0 : Option String)
    (s : RunState) (es : List Event) (h : TokInv t0 s) :
    TokInv t0 (runFrom k c s es) := by
  induction es generalizing s with
  | nil => exact h
  | cons e es ih => exact ih (step k c s e) (step_tokInv k c t0 s e h)

/-- Provenance of `lastBatch`: a recorded last-batch token either was
already recorded or comes from a batch event of the schedule. -/
theorem runFrom_lastBatch_mem (k : Option String) (c : String)
    (s : RunState) (es : List Event) (t : Option String)
    (h : (runFrom k c s es).lastBatch = some t) :
    s.lastBatch = some t ∨
    ∃ b w, Event.stream (StreamResult.msg b) w ∈ es ∧ b.next_page_token = t := by
  induction es generalizing s with
  | nil => exact Or.inl h
  | cons e es ih =>
      rw [runFrom_cons] at h
      rcases ih (step k c s e) h with h' | ⟨b, w, hmem, hb⟩
      · rcases step_token_cases k c s e with ⟨h1, _⟩ | ⟨b, w, he, h1, _⟩
        · exact Or.inl (h1 ▸ h')
        · rw [h'] at h1
          exact Or.inr ⟨b, w, by rw [he]; exact List.mem_cons_self _ _,
            (Option.some.injEq _ _ ▸ h1.symm)⟩
      · exact Or.inr ⟨b, w, List.mem_cons_of_mem e hmem, hb⟩

theorem step_connectsAllKey (k : Option String) (c : String) (s : RunState) (e : Event)
    (h : connectsAllKey k s = true) : connectsAllKey k (step k c s e) = true := by
  by_cases ht : s.terminated
  · rwa [step_of_terminated k c s e ht]
  · by_cases hf : s.fatal
    · rwa [step_of_fatal k c s e hf]
    · cases e with
      | cancel => simpa [step, ht, hf, connectsAllKey] using h
      | timer out =>
          by_cases hp : s.pending
          · cases out <;>
              simpa [step, ht, hf, hp, connectsAllKey, List.all_append] using h
          · simpa [step, ht, hf, hp] using h
      | stream res w =>
          by_cases hp : s.pending
          · simpa [step, ht, hf, hp] using h
          · cases res with
            | msg b =>
                by_cases he : b.items.isEmpty <;> cases w <;>
                  simpa [step, ht, hf, hp, he, connectsAllKey] using h
            | err => simpa [step, ht, hf, hp, connectsAllKey] using h
            | closed => simpa [step, ht, hf, hp, connectsAllKey] using h

theorem runFrom_connectsAllKey (k : Option String) (c : String) (s : RunState)
    (es : List Event) (h : connectsAllKey k s = true) :
    connectsAllKey k (runFrom k c s es) = true := by
  induction es generalizing s with
  | nil => exact h
  | cons e es ih => exact ih (step k c s e) (step_connectsAllKey k c s e h)

/-- C1 counterexample: a non-empty batch with token "new" arrives while
the in-memory token is "old" and the append fails. The handler of
src/main.rs:68 assigns `next_page_token` (line 73) before attempting the
write (lines 81-89), so after the failed append the in-memory token has
already advanced to "new": the claim that it still holds the token it
had before the batch arrived is false. -/
theorem C1_counterexample :
    (step none "chat" c1_start (Event.stream (StreamResult.msg c1_batch) false)).fatal = true ∧
    c1_start.next_page_token = some "old" ∧
    (step none "chat" c1_start (Event.stream (StreamResult.msg c1_batch) false)).next_page_token
      ≠ c1_start.next_page_token := by
  refine ⟨rfl, rfl, ?_⟩
  intro h
  simp [step, c1_start, c1_batch, initRunState] at h

/-- C1 (amended): for a non-empty batch delivered while connected, the
handler advances the in-memory page token before attempting the append;
if the append fails, the token has already advanced to the token of
the new batch, the log is unchanged by the failed append, and the failure is
fatal: the run processes no further events (no further log writes or
open calls). -/
theorem C1_amended (k : Option String) (c : String) (s : RunState) (b : Batch)
    (es : List Event) (hne : b.items.isEmpty = false) (hp : s.pending = false)
    (ht : s.terminated = false) (hf : s.fatal = false) :
    (step k c s (Event.stream (StreamResult.msg b) false)).fatal = true ∧
    (step k c s (Event.stream (StreamResult.msg b) false)).next_page_token
      = b.next_page_token ∧
    (step k c s (Event.stream (StreamResult.msg b) false)).log = s.log ∧
    runFrom k c (step k c s (Event.stream (StreamResult.msg b) false)) es
      = step k c s (Event.stream (StreamResult.msg b) false) := by
  have hstep : step k c s (Event.stream (StreamResult.msg b) false)
      = { s with next_page_token := b.next_page_token,
                 lastBatch := some b.next_page_token, fatal := true } := by
    simp [step, ht, hf, hp, hne]
  rw [hstep]
  exact ⟨rfl, rfl, rfl, runFrom_of_fatal k c _ es rfl⟩

/-- Witness for the amended C1 at a concrete state, batch and schedule. -/
theorem C1_amended_witness :
    c1_batch.items.isEmpty = false ∧ c1_start.pending = false ∧
    c1_start.terminated = false ∧ c1_start.fatal = false ∧
    ((step none "chat" c1_start (Event.stream (StreamResult.msg c1_batch) false)).fatal = true ∧
     (step none "chat" c1_start (Event.stream (StreamResult.msg c1_batch) false)).next_page_token
       = c1_batch.next_page_token ∧
     (step none "chat" c1_start (Event.stream (StreamResult.msg c1_batch) false)).log
       = c1_start.log ∧
     runFrom none "chat"
         (step none "chat" c1_start (Event.stream (StreamResult.msg c1_batch) false))
         [Event.cancel]
       = step none "chat" c1_start (Event.stream (StreamResult.msg c1_batch) false)) :=
  ⟨rfl, rfl, rfl, rfl, C1_amended none "chat" c1_start c1_batch [Event.cancel] rfl rfl rfl rfl⟩

/-- C2: reconnect continuity. In a run whose batches all carry a present
continuation token (the guarantee of the data model), once at least one batch
has been processed, the next reconnection attempt that reaches
`stream_comments` requests continuation from exactly the token of the
last batch received — whether or not that batch was persisted — and that
token is present, never absent. -/
theorem C2_reconnect_continuity (k : Option String) (c : String) (t0 : Option String)
    (pre : List Event) (out : ReconnectOutcome) (tb : Option String)
    (hout : out ≠ ReconnectOutcome.connectFail)
    (htok : batchTokensPresent pre = true)
    (hlb : (run k c t0 pre).lastBatch = some tb)
    (hp : (run k c t0 pre).pending = true)
    (ht : (run k c t0 pre).terminated = false)
    (hf : (run k c t0 pre).fatal = false) :
    (run k c t0 (pre ++ [Event.timer out])).streamCalls
      = (run k c t0 pre).streamCalls ++ [(c, tb)] ∧ tb.isSome = true := by
  have htinv : TokInv t0 (run k c t0 pre) :=
    runFrom_tokInv k c t0 (initRunState k c t0) pre (by unfold TokInv initRunState; rfl)
  have htoktb : (run k c t0 pre).next_page_token = tb := by
    unfold TokInv at htinv
    rw [hlb] at htinv
    exact htinv
  constructor
  · rw [run, runFrom_append]
    simp only [run] at hp ht hf htoktb
    cases out with
    | connectFail => exact absurd rfl hout
    | streamFail => simp [run, step, hp, ht, hf, htoktb]
    | ok => simp [run, step, hp, ht, hf, htoktb]
  · rcases runFrom_lastBatch_mem k c (initRunState k c t0) pre tb hlb with h0 | ⟨b, w, hmem, hb⟩
    · exact absurd h0 (by unfold initRunState; simp)
    · have := List.all_eq_true.mp htok _ hmem
      simpa [hb] using this

/-- Witness for C2: one logged batch with token "a", then a transport
error, then an elapsed deadline with a successful reconnection; the
call to `stream_comments` at reconnection carries token "a". -/
theorem C2_witness :
    ReconnectOutcome.ok ≠ ReconnectOutcome.connectFail ∧
    batchTokensPresent c2_pre = true ∧
    (run none "chat" none c2_pre).lastBatch = some (some "a") ∧
    (run none "chat" none c2_pre).pending = true ∧
    (run none "chat" none c2_pre).terminated = false ∧
    (run none "chat" none c2_pre).fatal = false ∧
    ((run none "chat" none (c2_pre ++ [Event.timer ReconnectOutcome.ok])).streamCalls
       = (run none "chat" none c2_pre).streamCalls ++ [("chat", some "a")] ∧
     (some "a" : Option String).isSome = true) :=
  ⟨by decide, rfl, rfl, rfl, rfl, rfl,
   C2_reconnect_continuity none "chat" none c2_pre ReconnectOutcome.ok (some "a")
     (by decide) rfl rfl rfl rfl rfl⟩

/-- C3: a batch with empty `items` writes no line (the log is unchanged),
yet the in-memory page token is set to the token of that batch, and that
token is the one carried by the next call to `stream_comments`
(here: a subsequent transport error schedules a reconnect, whose attempt
requests continuation from the token of the empty batch). -/
theorem C3_empty_batch (k : Option String) (c : String) (s : RunState) (b : Batch)
    (w w2 : Bool) (out : ReconnectOutcome)
    (he : b.items.isEmpty = true) (hp : s.pending = false)
    (ht : s.terminated = false) (hf : s.fatal = false)
    (hout : out ≠ ReconnectOutcome.connectFail) :
    (step k c s (Event.stream (StreamResult.msg b) w)).log = s.log ∧
    (step k c s (Event.stream (StreamResult.msg b) w)).next_page_token
      = b.next_page_token ∧
    (runFrom k c s
        [Event.stream (StreamResult.msg b) w, Event.stream StreamResult.err w2,
         Event.timer out]).streamCalls
      = s.streamCalls ++ [(c, b.next_page_token)] := by
  have h1 : step k c s (Event.stream (StreamResult.msg b) w)
      = { s with next_page_token := b.next_page_token,
                 lastBatch := some b.next_page_token } := by
    simp [step, ht, hf, hp, he]
  refine ⟨by rw [h1], by rw [h1], ?_⟩
  show (step k c (step k c (step k c s (Event.stream (StreamResult.msg b) w))
      (Event.stream StreamResult.err w2)) (Event.timer out)).streamCalls = _
  rw [h1]
  have h2 : step k c
      { s with next_page_token := b.next_page_token, lastBatch := some b.next_page_token }
      (Event.stream StreamResult.err w2)
      = { s with next_page_token := b.next_page_token,
                 lastBatch := some b.next_page_token, pending := true } := by
    simp [step, ht, hf, hp]
  rw [h2]
  cases out with
  | connectFail => exact absurd rfl hout
  | streamFail => simp [step, ht, hf]
  | ok => simp [step, ht, hf]

/-- Witness for C3: an empty batch with token "b" arriving with in-memory
token "t0": nothing is logged, and the next reconnection carries "b". -/
theorem C3_witness :
    c3_batch.items.isEmpty = true ∧ c3_start.pending = false ∧
    c3_start.terminated = false ∧ c3_start.fatal = false ∧
    ((step none "chat" c3_start (Event.stream (StreamResult.msg c3_batch) true)).log
       = c3_start.log ∧
     (step none "chat" c3_start (Event.stream (StreamResult.msg c3_batch) true)).next_page_token
       = c3_batch.next_page_token ∧
     (runFrom none "chat" c3_start
         [Event.stream (StreamResult.msg c3_batch) true, Event.stream StreamResult.err true,
          Event.timer ReconnectOutcome.ok]).streamCalls
       = c3_start.streamCalls ++ [("chat", c3_batch.next_page_token)]) :=
  ⟨rfl, rfl, rfl, rfl,
   C3_empty_batch none "chat" c3_start c3_batch true true ReconnectOutcome.ok
     rfl rfl rfl rfl (by decide)⟩

/-- C4 counterexample: resume is enabled, the output file is absent (so
`read_last_line` yields `None`), a video id is configured and external
resolution succeeds. The claim says startup reports a fatal configuration
error; the code instead proceeds by silently downgrading to a fresh start
through `fetch_chat_id` (src/main.rs:245-272): startup succeeds with the
externally resolved chat id and no resume token. -/
theorem C4_counterexample :
    startup true (some "vid") true FileState.absent (Except.ok "chat42")
      = Except.ok ("chat42", none) := rfl

/-- C4 (amended): when resume is enabled and `read_last_line` finds
nothing (empty or absent log), startup does not fail; it falls back to
external stream-id resolution via the configured video id, and reports a
fatal error only when no video id is configured. -/
theorem C4_amended (v cid : String) (file : FileState)
    (hrl : read_last_line file = Except.ok none) :
    startup true none true file (Except.ok cid)
      = Except.error ProgError.videoIdRequired ∧
    startup true (some v) true file (Except.ok cid) = Except.ok (cid, none) := by
  constructor <;> simp [startup, resume_bootstrap, hrl]

/-- Witness for the amended C4 at the absent-file state. -/
theorem C4_amended_witness :
    read_last_line FileState.absent = Except.ok none ∧
    (startup true none true FileState.absent (Except.ok "chat42")
       = Except.error ProgError.videoIdRequired ∧
     startup true (some "vid") true FileState.absent (Except.ok "chat42")
       = Except.ok ("chat42", none)) :=
  ⟨rfl, C4_amended "vid" "chat42" FileState.absent rfl⟩

/-- C5 counterexample: a cancellation signal and a pending batch are
simultaneously ready. The `tokio::select!` at src/main.rs:346 has no
`biased;` clause, so it may poll the stream branch first; the schedule in
which the batch fires before the signal is realizable. In that run the
manager processes (logs) the pending batch before reaching `Terminated`,
refuting the claim that it transitions to `Terminated` without
processing the pending batch. -/
theorem C5_counterexample :
    (run none "chat" none
        [Event.stream (StreamResult.msg c5_batch) true, Event.cancel]).log
      = [serializeBatch c5_batch] ∧
    (run none "chat" none
        [Event.stream (StreamResult.msg c5_batch) true, Event.cancel]).terminated
      = true := ⟨rfl, rfl⟩

/-- C5 (amended): cancellation is polled on every loop iteration, but the
unbiased select gives it no priority over a simultaneously ready batch,
which may therefore be processed first. Once the cancellation branch is
selected, the manager transitions to `Terminated` immediately — without
processing any batch, log write, or open call in that step — and
`Terminated` is absorbing: no schedule continuation changes the state, so
no further log writes, `open` calls, or `next` calls occur. -/
theorem C5_amended (k : Option String) (c : String) (s : RunState) (es : List Event)
    (ht : s.terminated = false) (hf : s.fatal = false) :
    (step k c s Event.cancel).terminated = true ∧
    (step k c s Event.cancel).log = s.log ∧
    (step k c s Event.cancel).connects = s.connects ∧
    (step k c s Event.cancel).streamCalls = s.streamCalls ∧
    runFrom k c (step k c s Event.cancel) es = step k c s Event.cancel := by
  have hstep : step k c s Event.cancel = { s with terminated := true } := by
    simp [step, ht, hf]
  rw [hstep]
  exact ⟨rfl, rfl, rfl, rfl, runFrom_of_terminated k c _ es rfl⟩

/-- Witness for the amended C5 at a concrete state and schedule. -/
theorem C5_amended_witness :
    c5_start.terminated = false ∧ c5_start.fatal = false ∧
    ((step none "chat" c5_start Event.cancel).terminated = true ∧
     (step none "chat" c5_start Event.cancel).log = c5_start.log ∧
     (step none "chat" c5_start Event.cancel).connects = c5_start.connects ∧
     (step none "chat" c5_start Event.cancel).streamCalls = c5_start.streamCalls ∧
     runFrom none "chat" (step none "chat" c5_start Event.cancel)
         [Event.stream (StreamResult.msg c5_batch) true, Event.timer ReconnectOutcome.ok]
       = step none "chat" c5_start Event.cancel) :=
  ⟨rfl, rfl,
   C5_amended none "chat" c5_start
     [Event.stream (StreamResult.msg c5_batch) true, Event.timer ReconnectOutcome.ok]
     rfl rfl⟩

/-- C6 counterexample: a `ConnectError` at the initial connection
(src/main.rs:291, "fail fast if initial connection fails") is propagated
with `?` and terminates the process, refuting the claim that
`ConnectError` never terminates the process and is always handled by
scheduling a reconnection. -/
theorem C6_counterexample :
    runProgram false (some "vid") false FileState.absent (Except.ok "chat")
        none false true [] = Except.error ProgError.connectError := rfl

/-- C6 (amended): once a session has been opened, mid-stream transport
errors and end-of-stream schedule a reconnection and never leave the
loop; a `ConnectError` during a reconnection attempt merely re-arms the
reconnect deadline; an `IoError` from the log append is fatal; and — in
deviation from the claim — a `ConnectError` at the fail-fast initial
connect also terminates the process. -/
theorem C6_error_policy (k : Option String) (c : String) (s s2 : RunState)
    (w : Bool) (b : Batch) (v r : String) (es : List Event)
    (hp : s.pending = false) (ht : s.terminated = false) (hf : s.fatal = false)
    (hp2 : s2.pending = true) (ht2 : s2.terminated = false) (hf2 : s2.fatal = false)
    (hb : b.items.isEmpty = false) :
    step k c s (Event.stream StreamResult.err w) = { s with pending := true } ∧
    step k c s (Event.stream StreamResult.closed w) = { s with pending := true } ∧
    step k c s2 (Event.timer ReconnectOutcome.connectFail)
      = { s2 with connects := s2.connects ++ [k] } ∧
    (step k c s (Event.stream (StreamResult.msg b) false)).fatal = true ∧
    runProgram false (some v) false FileState.absent (Except.ok r) k false true es
      = Except.error ProgError.connectError := by
  refine ⟨?_, ?_, ?_, ?_, ?_⟩
  · simp [step, ht, hf, hp]
  · simp [step, ht, hf, hp]
  · obtain ⟨tok, p, lg, cn, sc, tm, ft, lb⟩ := s2
    simp only at hp2 ht2 hf2
    subst hp2; subst ht2; subst hf2
    simp [step]
  · simp [step, ht, hf, hp, hb]
  · simp [runProgram, startup]

/-- Witness for the amended C6 at concrete states. -/
theorem C6_witness :
    c6_connected.pending = false ∧ c6_connected.terminated = false ∧
    c6_connected.fatal = false ∧ c6_pending.pending = true ∧
    c6_pending.terminated = false ∧ c6_pending.fatal = false ∧
    c6_batch.items.isEmpty = false ∧
    (step none "chat" c6_connected (Event.stream StreamResult.err true)
       = { c6_connected with pending := true } ∧
     step none "chat" c6_connected (Event.stream StreamResult.closed true)
       = { c6_connected with pending := true } ∧
     step none "chat" c6_pending (Event.timer ReconnectOutcome.connectFail)
       = { c6_pending with connects := c6_pending.connects ++ [none] } ∧
     (step none "chat" c6_connected (Event.stream (StreamResult.msg c6_batch) false)).fatal
       = true ∧
     runProgram false (some "vid") false FileState.absent (Except.ok "chat") none
         false true [Event.cancel] = Except.error ProgError.connectError) :=
  ⟨rfl, rfl, rfl, rfl, rfl, rfl, rfl,
   C6_error_policy none "chat" c6_connected c6_pending true c6_batch "vid" "chat"
     [Event.cancel] rfl rfl rfl rfl rfl rfl rfl⟩

/-- C7: `read_last_line` yields `Ok(None)` on an absent file (absence is
not an error); it errors only on a non-absence open failure or a failed
line read; on a readable file it returns the final non-blank line
(trailing blank lines are skipped, a trailing well-formed line is the
result); and a malformed final line makes the resume bootstrap degrade to
no resume point, not to a fatal error. -/
theorem C7_recover_last (lines : List LineContent) (v : Json) :
    read_last_line FileState.absent = Except.ok none ∧
    read_last_line FileState.openError = Except.error IoError.ioError ∧
    read_last_line (FileState.present lines true) = Except.error IoError.ioError ∧
    read_last_line (FileState.present lines false) = Except.ok (lastNonBlank lines) ∧
    lastNonBlank (lines ++ [LineContent.blank]) = lastNonBlank lines ∧
    lastNonBlank (lines ++ [LineContent.json v]) = some (LineContent.json v) ∧
    resume_bootstrap (FileState.present (lines ++ [LineContent.malformed]) false)
      = Except.ok (none, none) := by
  refine ⟨rfl, rfl, rfl, rfl, ?_, ?_, ?_⟩
  · simp [lastNonBlank, List.foldl_append]
  · simp [lastNonBlank, List.foldl_append]
  · have hlast : lastNonBlank (lines ++ [LineContent.malformed])
        = some LineContent.malformed := by
      simp [lastNonBlank, List.foldl_append]
    simp [resume_bootstrap, read_last_line, hlast, parse_resume_info]

/-- C8 counterexample: the credential at the provider changes after startup
(occasion 0 yields "key0", every later occasion "key1"). In a run with
one reconnection there are two `connect` calls; the claim says the
second must carry the freshly fetched credential `provider8 1`, but the
code attaches the startup value `provider8 0` to both (`$api_key.clone()`
in `attempt_reconnect!`, src/main.rs:36), and the two differ. -/
theorem C8_counterexample :
    (run (provider8 0) "chat" none
        [Event.stream StreamResult.err true, Event.timer ReconnectOutcome.ok]).connects
      = [provider8 0, provider8 0] ∧ provider8 0 ≠ provider8 1 := by
  refine ⟨rfl, ?_⟩
  intro h
  simp [provider8] at h

/-- C8 (amended): the credential is fetched once at startup; every
`YouTubeClient::connect` call of the run — the initial one and every
reconnection — attaches that same cached value, so a credential changed
between reconnects is never picked up. -/
theorem C8_credential_cached (k : Option String) (c : String) (t0 : Option String)
    (es : List Event) : connectsAllKey k (run k c t0 es) = true :=
  runFrom_connectsAllKey k c (initRunState k c t0) es (by simp [connectsAllKey, initRunState])

/-- C9: in the scenario run the Resume Log holds exactly three lines,
whose tokens are "a", "c", "d" in that order, and recovery from that log
(last line, then `parse_resume_info`) yields page token "d" (and chat id
"chat1"), which the resume bootstrap returns as the resume cursor. -/
theorem C9_scenario :
    c9_run.log = [serializeBatch batch_a, serializeBatch batch_c, serializeBatch batch_d] ∧
    c9_run.log.map (fun j => (j.get "nextPageToken").bind Json.asStr)
      = [some "a", some "c", some "d"] ∧
    read_last_line c9_file = Except.ok (some (LineContent.json (serializeBatch batch_d))) ∧
    parse_resume_info (LineContent.json (serializeBatch batch_d))
      = Except.ok (some "chat1", some "d") ∧
    resume_bootstrap c9_file = Except.ok (some "chat1", some "d") :=
  ⟨rfl, rfl, rfl, rfl, rfl⟩

/-- C10: when the last well-formed log line has an empty `items` array,
or its first item lacks `snippet.liveChatId`, `parse_resume_info`
succeeds with no chat id (and whatever token the line carries); the
resume bootstrap then discards the record, so startup requires a
configured video id — failing with an error when it is absent, and
resolving the chat id externally when it is present. -/
theorem C10_parse_fallback (v : Json) (cid vid : String)
    (h : v.get "items" = some (Json.arr []) ∨
         ∃ item rest, v.get "items" = some (Json.arr (item :: rest)) ∧
           ((item.get "snippet").bind (fun snippet => snippet.get "liveChatId")).bind
             Json.asStr = none) :
    parse_resume_info (LineContent.json v)
      = Except.ok (none, (v.get "nextPageToken").bind Json.asStr) ∧
    startup true none true (FileState.present [LineContent.json v] false) (Except.ok cid)
      = Except.error ProgError.videoIdRequired ∧
    startup true (some vid) true (FileState.present [LineContent.json v] false)
        (Except.ok cid)
      = Except.ok (cid, none) := by
  have hchat :
      ((((((v.get "items").bind Json.asArray).bind List.head?).bind
        (fun item => item.get "snippet")).bind
        (fun snippet => snippet.get "liveChatId")).bind Json.asStr) = none := by
    rcases h with h | ⟨item, rest, h, hnone⟩
    · rw [h]; rfl
    · rw [h]
      simpa [Json.asArray, Option.bind] using hnone
  have hparse : parse_resume_info (LineContent.json v)
      = Except.ok (none, (v.get "nextPageToken").bind Json.asStr) := by
    simp [parse_resume_info, hchat]
  refine ⟨hparse, ?_, ?_⟩ <;>
    simp [startup, resume_bootstrap, read_last_line, lastNonBlank, hparse]

/-- Witness for C10 on a line with an empty `items` array. -/
theorem C10_witness :
    (c10_value.get "items" = some (Json.arr []) ∨
     ∃ item rest, c10_value.get "items" = some (Json.arr (item :: rest)) ∧
       ((item.get "snippet").bind (fun snippet => snippet.get "liveChatId")).bind
         Json.asStr = none) ∧
    (parse_resume_info (LineContent.json c10_value)
       = Except.ok (none, (c10_value.get "nextPageToken").bind Json.asStr) ∧
     startup true none true (FileState.present [LineContent.json c10_value] false)
         (Except.ok "chat9")
       = Except.error ProgError.videoIdRequired ∧
     startup true (some "vid") true (FileState.present [LineContent.json c10_value] false)
         (Except.ok "chat9")
       = Except.ok ("chat9", none)) :=
  ⟨Or.inl rfl, C10_parse_fallback c10_value "chat9" "vid" (Or.inl rfl)⟩
